import Mathlib

/-!
Verification of the request/response translation and error-normalization
contract of the reviewwebsite-mcp-server repository.

The development shallowly embeds the repository's TypeScript core:

* `Json` models the JavaScript values that flow through the system
  (request bodies, remote response bodies, error payloads), together with
  `jsonStringifyPretty`, a model of `JSON.stringify(value, null, 2)` as
  used by every controller.
* `Service.*Request` model the request construction performed by each
  function of `services/vendor.reviewwebsite.service.ts` (HTTP method,
  url, query parameters, JSON body after serialization, headers), and
  `handleApiError` models its error normalization helper.
* `getApiKey` and the `Controller.*` functions model
  `controllers/reviewwebsite.controller.ts`, with the remote transport
  represented by an explicit `Except CaughtError Json` outcome.
* The `Tool.*` definitions model the MCP tool handlers of
  `tools/reviewwebsite.tool.ts`.

JavaScript truthiness (`if (apiKey)`, `if (options?.timeout)`,
`a || b`) is modelled explicitly wherever the source relies on it.
-/

namespace ReviewWebsite

/-- JSON/JavaScript structured values (the source types remote responses,
request bodies and error payloads as untyped `any`). Object fields keep
insertion order, as JavaScript objects do. -/
inductive Json where
  | null
  | bool (b : Bool)
  | num (n : Int)
  | str (s : String)
  | arr (elems : List Json)
  | obj (fields : List (String × Json))

/-- JavaScript truthiness of a value: `null`, `false`, `0` and `""` are
falsy; every array and object is truthy. -/
def Json.truthy : Json → Bool
  | Json.null => false
  | Json.bool b => b
  | Json.num n => n != 0
  | Json.str s => !s.isEmpty
  | Json.arr _ => true
  | Json.obj _ => true

/-- JavaScript `typeof x === 'object'`: true for objects, arrays and
`null`. -/
def Json.typeofObject : Json → Bool
  | Json.null => true
  | Json.arr _ => true
  | Json.obj _ => true
  | _ => false

/-- JavaScript property access `x.k`: a field lookup on objects,
`undefined` (here `none`) on everything else. -/
def Json.field : Json → String → Option Json
  | Json.obj fields, k => fields.lookup k
  | _, _ => none

/-- Truthiness of a possibly-`undefined` JavaScript value
(`undefined` is falsy). -/
def jsTruthy : Option Json → Bool
  | none => false
  | some j => j.truthy

/-- Truthiness of a possibly-`undefined` JavaScript string. -/
def strTruthy : Option String → Bool
  | none => false
  | some s => !s.isEmpty

/-- Truthiness of a possibly-`undefined` JavaScript number
(only `0` is falsy in the integer fragment used by this repository). -/
def numTruthy : Option Int → Bool
  | none => false
  | some n => n != 0

def hexDigitChar (n : Nat) : Char :=
  if n < 10 then Char.ofNat (48 + n) else Char.ofNat (87 + n)

/-- String-character escaping of `JSON.stringify`. -/
def escapeJsonChar (c : Char) : String :=
  if c = '"' then "\\\""
  else if c = '\\' then "\\\\"
  else if c = '\n' then "\\n"
  else if c = '\r' then "\\r"
  else if c = '\t' then "\\t"
  else if c = '\x08' then "\\b"
  else if c = '\x0c' then "\\f"
  else if c.toNat < 32 then
    "\\u00" ++ String.singleton (hexDigitChar (c.toNat / 16)) ++
      String.singleton (hexDigitChar (c.toNat % 16))
  else String.singleton c

def quoteJsonString (s : String) : String :=
  "\"" ++ String.join (s.data.map escapeJsonChar) ++ "\""

mutual

/-- The recursion of `JSON.stringify(value, replacer, gap)` for a value at
the given accumulated indentation (restricted to the value universe
`Json`; the repository always calls it with `replacer = null`). -/
def Json.render (gap indent : String) : Json → String
  | Json.null => "null"
  | Json.bool b => if b then "true" else "false"
  | Json.num n => toString n
  | Json.str s => quoteJsonString s
  | Json.arr [] => "[]"
  | Json.arr (x :: xs) =>
      "[\n" ++ Json.renderItems gap (indent ++ gap) (x :: xs) ++ "\n" ++ indent ++ "]"
  | Json.obj [] => "\x7b\x7d"
  | Json.obj (f :: fs) =>
      "\x7b\n" ++ Json.renderFields gap (indent ++ gap) (f :: fs) ++ "\n" ++ indent ++ "\x7d"

def Json.renderItems (gap indent : String) : List Json → String
  | [] => ""
  | [x] => indent ++ Json.render gap indent x
  | x :: y :: xs =>
      indent ++ Json.render gap indent x ++ ",\n" ++ Json.renderItems gap indent (y :: xs)

def Json.renderFields (gap indent : String) : List (String × Json) → String
  | [] => ""
  | [(k, v)] => indent ++ quoteJsonString k ++ ": " ++ Json.render gap indent v
  | (k, v) :: f :: fs =>
      indent ++ quoteJsonString k ++ ": " ++ Json.render gap indent v ++ ",\n" ++
        Json.renderFields gap indent (f :: fs)

end

/-- `JSON.stringify(value, null, 2)`, the serialization every controller
applies to a successful remote response. -/
def jsonStringifyPretty (j : Json) : String :=
  Json.render "  " "" j

/-- Keeps the fields whose value is defined, dropping the `undefined`
ones — exactly what `JSON.stringify` does to object properties whose
value is `undefined` when axios serializes a request body. -/
def presentFields (fields : List (String × Option Json)) : List (String × Json) :=
  fields.filterMap (fun f => f.2.map (fun v => (f.1, v)))

def bodyObj (fields : List (String × Option Json)) : Json :=
  Json.obj (presentFields fields)

/-- An outgoing HTTP request as the service layer assembles it: method,
absolute url, `URLSearchParams` query entries in append order, the JSON
body axios would serialize (`none` when no body is sent), and headers. -/
structure Request where
  method : String
  url : String
  query : List (String × String)
  body : Option Json
  headers : List (String × String)

/-- Field lookup inside a request's JSON body. -/
def Request.bodyField (r : Request) (key : String) : Option Json :=
  r.body.bind (fun j => j.field key)

def BASE_URL : String := "https://reviewweb.site"

def API_BASE : String := BASE_URL ++ "/api/v1"

/-- `getHeaders` of `services/vendor.reviewwebsite.service.ts` (lines
406–416): always `Content-Type: application/json`; the `X-API-Key`
header is added only when `apiKey` is truthy. -/
def getHeaders (apiKey : Option String) : List (String × String) :=
  let headers := [("Content-Type", "application/json")]
  if strTruthy apiKey then headers ++ [("X-API-Key", apiKey.getD "")] else headers

/-- `ConvertToMarkdownOptions` of `tools/reviewwebsite.types.ts`. -/
structure ConvertToMarkdownOptions where
  model : Option String := none
  delayAfterLoad : Option Int := none
  debug : Option Bool := none

def ConvertToMarkdownOptions.toJson (o : ConvertToMarkdownOptions) : Json :=
  bodyObj [("model", o.model.map Json.str),
           ("delayAfterLoad", o.delayAfterLoad.map Json.num),
           ("debug", o.debug.map Json.bool)]

/-- `ExtractDataOptions` of `tools/reviewwebsite.types.ts`
(`instructions` and `jsonTemplate` are required). -/
structure ExtractDataOptions where
  instructions : String
  systemPrompt : Option String := none
  jsonTemplate : String
  model : Option String := none
  delayAfterLoad : Option Int := none
  recursive : Option Bool := none
  debug : Option Bool := none

def ExtractDataOptions.toJson (o : ExtractDataOptions) : Json :=
  bodyObj [("instructions", some (Json.str o.instructions)),
           ("systemPrompt", o.systemPrompt.map Json.str),
           ("jsonTemplate", some (Json.str o.jsonTemplate)),
           ("model", o.model.map Json.str),
           ("delayAfterLoad", o.delayAfterLoad.map Json.num),
           ("recursive", o.recursive.map Json.bool),
           ("debug", o.debug.map Json.bool)]

/-- `ExtractLinksOptions` of `tools/reviewwebsite.types.ts` (the `type`
enumeration `web | image | file | all` is kept as its string value). -/
structure ExtractLinksOptions where
  type : Option String := none
  maxLinks : Option Int := none
  delayAfterLoad : Option Int := none
  getStatusCode : Option Bool := none
  autoScrapeInternalLinks : Option Bool := none
  debug : Option Bool := none

def ExtractLinksOptions.toJson (o : ExtractLinksOptions) : Json :=
  bodyObj [("type", o.type.map Json.str),
           ("maxLinks", o.maxLinks.map Json.num),
           ("delayAfterLoad", o.delayAfterLoad.map Json.num),
           ("getStatusCode", o.getStatusCode.map Json.bool),
           ("autoScrapeInternalLinks", o.autoScrapeInternalLinks.map Json.bool),
           ("debug", o.debug.map Json.bool)]

/-- `SummarizeOptions` of `tools/reviewwebsite.types.ts`. -/
structure SummarizeOptions where
  instructions : Option String := none
  systemPrompt : Option String := none
  model : Option String := none
  delayAfterLoad : Option Int := none
  maxLinks : Option Int := none
  maxLength : Option Int := none
  format : Option String := none
  debug : Option Bool := none

def SummarizeOptions.toJson (o : SummarizeOptions) : Json :=
  bodyObj [("instructions", o.instructions.map Json.str),
           ("systemPrompt", o.systemPrompt.map Json.str),
           ("model", o.model.map Json.str),
           ("delayAfterLoad", o.delayAfterLoad.map Json.num),
           ("maxLinks", o.maxLinks.map Json.num),
           ("maxLength", o.maxLength.map Json.num),
           ("format", o.format.map Json.str),
           ("debug", o.debug.map Json.bool)]

/-- `UrlIsAliveOptions` of `tools/reviewwebsite.types.ts`. -/
structure UrlIsAliveOptions where
  timeout : Option Int := none
  proxyUrl : Option String := none

/-- `ReviewOptions` of `tools/reviewwebsite.types.ts`. -/
structure ReviewOptions where
  skipImageExtraction : Option Bool := none
  skipLinkExtraction : Option Bool := none
  maxExtractedImages : Option Int := none
  maxExtractedLinks : Option Int := none
  textModel : Option String := none
  visionModel : Option String := none

def ReviewOptions.toJson (o : ReviewOptions) : Json :=
  bodyObj [("skipImageExtraction", o.skipImageExtraction.map Json.bool),
           ("skipLinkExtraction", o.skipLinkExtraction.map Json.bool),
           ("maxExtractedImages", o.maxExtractedImages.map Json.num),
           ("maxExtractedLinks", o.maxExtractedLinks.map Json.num),
           ("textModel", o.textModel.map Json.str),
           ("visionModel", o.visionModel.map Json.str)]

namespace Service

/-- Request built by service `convertToMarkdown`:
`POST {API_BASE}/convert/markdown` with body `{ url, options }`. -/
def convertToMarkdownRequest (url : String) (options : Option ConvertToMarkdownOptions)
    (apiKey : Option String) : Request :=
  { method := "POST", url := API_BASE ++ "/convert/markdown", query := [],
    body := some (bodyObj [("url", some (Json.str url)),
                           ("options", options.map ConvertToMarkdownOptions.toJson)]),
    headers := getHeaders apiKey }

/-- Request built by service `convertMultipleToMarkdown`:
`POST {API_BASE}/convert/markdown/urls` with body `{ urls, options }`. -/
def convertMultipleToMarkdownRequest (urls : List String)
    (options : Option ConvertToMarkdownOptions) (apiKey : Option String) : Request :=
  { method := "POST", url := API_BASE ++ "/convert/markdown/urls", query := [],
    body := some (bodyObj [("urls", some (Json.arr (urls.map Json.str))),
                           ("options", options.map ConvertToMarkdownOptions.toJson)]),
    headers := getHeaders apiKey }

/-- Request built by service `extractData`:
`POST {API_BASE}/extract` with body `{ url, options }`. -/
def extractDataRequest (url : String) (options : ExtractDataOptions)
    (apiKey : Option String) : Request :=
  { method := "POST", url := API_BASE ++ "/extract", query := [],
    body := some (bodyObj [("url", some (Json.str url)),
                           ("options", some options.toJson)]),
    headers := getHeaders apiKey }

/-- Request built by service `extractDataMultiple`:
`POST {API_BASE}/extract/urls` with body `{ urls, options }`. -/
def extractDataMultipleRequest (urls : List String) (options : ExtractDataOptions)
    (apiKey : Option String) : Request :=
  { method := "POST", url := API_BASE ++ "/extract/urls", query := [],
    body := some (bodyObj [("urls", some (Json.arr (urls.map Json.str))),
                           ("options", some options.toJson)]),
    headers := getHeaders apiKey }

/-- Request built by service `scrapeUrl`: `POST {API_BASE}/scrape` with
the target url as a query parameter and body `{ options: { delayAfterLoad } }`. -/
def scrapeUrlRequest (url : String) (delayAfterLoad : Option Int)
    (apiKey : Option String) : Request :=
  { method := "POST", url := API_BASE ++ "/scrape", query := [("url", url)],
    body := some (Json.obj [("options", bodyObj [("delayAfterLoad", delayAfterLoad.map Json.num)])]),
    headers := getHeaders apiKey }

/-- Request built by service `extractLinks`:
`POST {API_BASE}/scrape/links-map` with the target url as a query
parameter and the options object as the body (axios sends no body when
`options` is `undefined`). -/
def extractLinksRequest (url : String) (options : Option ExtractLinksOptions)
    (apiKey : Option String) : Request :=
  { method := "POST", url := API_BASE ++ "/scrape/links-map", query := [("url", url)],
    body := options.map ExtractLinksOptions.toJson,
    headers := getHeaders apiKey }

/-- Request built by service `summarizeUrl`:
`POST {API_BASE}/summarize/url` with body `{ url, options }`. -/
def summarizeUrlRequest (url : String) (options : Option SummarizeOptions)
    (apiKey : Option String) : Request :=
  { method := "POST", url := API_BASE ++ "/summarize/url", query := [],
    body := some (bodyObj [("url", some (Json.str url)),
                           ("options", options.map SummarizeOptions.toJson)]),
    headers := getHeaders apiKey }

/-- Request built by service `summarizeWebsite`:
`POST {API_BASE}/summarize/website` with body `{ url, options }`. -/
def summarizeWebsiteRequest (url : String) (options : Option SummarizeOptions)
    (apiKey : Option String) : Request :=
  { method := "POST", url := API_BASE ++ "/summarize/website", query := [],
    body := some (bodyObj [("url", some (Json.str url)),
                           ("options", options.map SummarizeOptions.toJson)]),
    headers := getHeaders apiKey }

/-- Request built by service `summarizeMultipleUrls`:
`POST {API_BASE}/summarize/urls` with body `{ urls, options }`. -/
def summarizeMultipleUrlsRequest (urls : List String) (options : Option SummarizeOptions)
    (apiKey : Option String) : Request :=
  { method := "POST", url := API_BASE ++ "/summarize/urls", query := [],
    body := some (bodyObj [("urls", some (Json.arr (urls.map Json.str))),
                           ("options", options.map SummarizeOptions.toJson)]),
    headers := getHeaders apiKey }

/-- Request built by service `isUrlAlive`: `GET {API_BASE}/url/is-alive`
with query parameters `url`, then `timeout` and `proxyUrl` appended only
when truthy (`if (options?.timeout)`, `if (options?.proxyUrl)`). -/
def isUrlAliveRequest (url : String) (options : Option UrlIsAliveOptions)
    (apiKey : Option String) : Request :=
  let timeout := options.bind UrlIsAliveOptions.timeout
  let proxyUrl := options.bind UrlIsAliveOptions.proxyUrl
  { method := "GET", url := API_BASE ++ "/url/is-alive",
    query := [("url", url)] ++
      (if numTruthy timeout then [("timeout", toString (timeout.getD 0))] else []) ++
      (if strTruthy proxyUrl then [("proxyUrl", proxyUrl.getD "")] else []),
    body := none,
    headers := getHeaders apiKey }

/-- Request built by service `getUrlAfterRedirects`:
`GET {API_BASE}/url/get-url-after-redirects` with query parameter `url`. -/
def getUrlAfterRedirectsRequest (url : String) (apiKey : Option String) : Request :=
  { method := "GET", url := API_BASE ++ "/url/get-url-after-redirects",
    query := [("url", url)], body := none, headers := getHeaders apiKey }

/-- Request built by service `getAIModels`: `GET {API_BASE}/ai/models`. -/
def getAIModelsRequest (apiKey : Option String) : Request :=
  { method := "GET", url := API_BASE ++ "/ai/models", query := [], body := none,
    headers := getHeaders apiKey }

/-- Request built by service `createReview`: `POST {API_BASE}/review`
with body `{ url, instructions, options }`. -/
def createReviewRequest (url : String) (instructions : Option String)
    (options : Option ReviewOptions) (apiKey : Option String) : Request :=
  { method := "POST", url := API_BASE ++ "/review", query := [],
    body := some (bodyObj [("url", some (Json.str url)),
                           ("instructions", instructions.map Json.str),
                           ("options", options.map ReviewOptions.toJson)]),
    headers := getHeaders apiKey }

/-- Request built by service `getReview`: `GET {API_BASE}/review/{id}`
with the identifier interpolated into the path. -/
def getReviewRequest (reviewId : String) (apiKey : Option String) : Request :=
  { method := "GET", url := API_BASE ++ "/review/" ++ reviewId, query := [],
    body := none, headers := getHeaders apiKey }

/-- Request built by service `listReviews`: `GET {API_BASE}/review` with
`page` and `limit` appended to the query only when truthy
(`if (page) ...`, `if (limit) ...`). -/
def listReviewsRequest (page limit : Option Int) (apiKey : Option String) : Request :=
  { method := "GET", url := API_BASE ++ "/review",
    query :=
      (if numTruthy page then [("page", toString (page.getD 0))] else []) ++
      (if numTruthy limit then [("limit", toString (limit.getD 0))] else []),
    body := none, headers := getHeaders apiKey }

/-- Request built by service `updateReview`: `PATCH {API_BASE}/review/{id}`
with body `{ url, instructions }`. -/
def updateReviewRequest (reviewId : String) (url instructions : Option String)
    (apiKey : Option String) : Request :=
  { method := "PATCH", url := API_BASE ++ "/review/" ++ reviewId, query := [],
    body := some (bodyObj [("url", url.map Json.str),
                           ("instructions", instructions.map Json.str)]),
    headers := getHeaders apiKey }

/-- Request built by service `deleteReview`: `DELETE {API_BASE}/review/{id}`. -/
def deleteReviewRequest (reviewId : String) (apiKey : Option String) : Request :=
  { method := "DELETE", url := API_BASE ++ "/review/" ++ reviewId, query := [],
    body := none, headers := getHeaders apiKey }

end Service

/-- The two error kinds the service layer constructs. `ErrorType` is
declared in `utils/error.util.ts`, which is not part of the provided
sources; the two constructors below are the ones the service uses. -/
inductive ErrorType where
  | API_ERROR
  | UNEXPECTED_ERROR

/-- The request configuration axios attaches to the errors it throws and
that `handleApiError` reads back (`error.config?.url`,
`error.config?.params`); its headers are the ones the service put on the
failed request via `getHeaders`. -/
structure AxiosConfig where
  url : Option String := none
  params : List (String × String) := []
  headers : List (String × String) := []

/-- A value caught by a service `catch` block: an axios error carrying
the request configuration and, when the remote answered with a non-2xx
status, the response status and parsed body; or any other thrown value
(network failure, timeout, programming error). -/
inductive CaughtError where
  | axios (config : AxiosConfig) (response : Option (Int × Json))
  | other (message : String)

/-- The metadata record passed as the fourth argument of the `McpError`
constructor by `handleApiError`. -/
structure McpErrorMeta where
  errorCode : Json
  source : String
  cause : Option CaughtError := none

/-- `McpError` of the missing `utils/error.util.ts`, as constructed by
`handleApiError`: message, error kind, HTTP-status-like numeric code and
metadata. The message and error code are `Json` because the source
copies untyped `data.message` / `data.error` values into them. -/
structure McpError where
  message : Json
  errorType : ErrorType
  statusCode : Int
  metadata : McpErrorMeta

/-- `handleApiError` of `services/vendor.reviewwebsite.service.ts`
(lines 424–472): an axios error with a response becomes an `API_ERROR`
carrying the response status, `data.message` when truthy (else the
generic message) and `data.error` when truthy (else the generic code);
every other failure becomes an `UNEXPECTED_ERROR` with a generic
message, status 500 and the original cause retained. -/
def handleApiError (error : CaughtError) (method : String) : McpError :=
  match error with
  | CaughtError.axios _ (some (status, data)) =>
      let dataIsObject := data.truthy && data.typeofObject
      let errorMessage :=
        if dataIsObject && jsTruthy (data.field "message") then
          (data.field "message").getD Json.null
        else Json.str "Unknown error from ReviewWebsite API"
      let errorCode :=
        if dataIsObject && jsTruthy (data.field "error") then
          (data.field "error").getD Json.null
        else Json.str "reviewwebsite_api_error"
      { message := errorMessage, errorType := ErrorType.API_ERROR, statusCode := status,
        metadata := { errorCode := errorCode,
                      source := "services/vendor.reviewwebsite.service.ts@" ++ method } }
  | e =>
      { message := Json.str "Failed to communicate with ReviewWebsite API",
        errorType := ErrorType.UNEXPECTED_ERROR, statusCode := 500,
        metadata := { errorCode := Json.str "reviewwebsite_service_error",
                      source := "services/vendor.reviewwebsite.service.ts@" ++ method,
                      cause := some e } }

/-- The uniform `try/catch` wrapper of every service function around its
one axios call, with the transport outcome made explicit: a successful
response body is returned unmodified, any caught failure goes through
`handleApiError` and is raised. -/
def runService (method : String) (outcome : Except CaughtError Json) : Except McpError Json :=
  match outcome with
  | Except.ok data => Except.ok data
  | Except.error e => Except.error (handleApiError e method)

/-- The process-wide configuration: named string values coming from the
environment and the user's config file. -/
abbrev Config := List (String × String)

/-- Modelled from the spec: `config.get` of the missing
`utils/config.util.ts` returns the process-wide configuration value
registered under the given name, or `undefined` when the name is not
configured ("a required process-wide credential variable … read at
startup; CLI/tool-level `api_key` argument overrides it per call"). -/
def configGet (cfg : Config) (key : String) : Option String :=
  cfg.lookup key

/-- The variable name `src/env.ts` requires (`envSchema`, lines 6–8). -/
def envRequiredKey : String := "REVIEWWEBSITE_ACCESS_KEY"

/-- The variable name `getApiKey` of the controller reads as the
process-wide fallback credential. -/
def configCredentialKey : String := "REVIEWWEBSITE_API_KEY"

/-- The parsed environment of `src/env.ts`. -/
structure Env where
  REVIEWWEBSITE_ACCESS_KEY : String

/-- `envSchema.parse(process.env)` of `src/env.ts`: succeeds exactly when
`REVIEWWEBSITE_ACCESS_KEY` is present (any string is accepted). -/
def envSchemaParse (processEnv : Config) : Except String Env :=
  match configGet processEnv envRequiredKey with
  | some v => Except.ok { REVIEWWEBSITE_ACCESS_KEY := v }
  | none => Except.error "REVIEWWEBSITE_ACCESS_KEY: Required"

/-- `ReviewWebsiteOptions` of `tools/reviewwebsite.types.ts`: the
per-call options record that may carry an `api_key`. -/
structure ReviewWebsiteOptions where
  api_key : Option String := none

/-- `getApiKey` of `controllers/reviewwebsite.controller.ts` (lines
268–274): `options?.api_key || config.get('REVIEWWEBSITE_API_KEY')`,
throwing `Error('API key is required for ReviewWebsite API')` when the
combined value is falsy. -/
def getApiKey (options : Option ReviewWebsiteOptions) (cfg : Config) : Except String String :=
  let fromCall := options.bind ReviewWebsiteOptions.api_key
  let apiKey := if strTruthy fromCall then fromCall else configGet cfg configCredentialKey
  if strTruthy apiKey then Except.ok (apiKey.getD "")
  else Except.error "API key is required for ReviewWebsite API"

/-- Credential resolution followed by the client call, the shared shape
of steps 1–2 of every controller function: the client function is
applied only when a credential was resolved. -/
def resolveAndCall {α : Type} (options : Option ReviewWebsiteOptions) (cfg : Config)
    (clientCall : String → α) : Except String α :=
  match getApiKey options cfg with
  | Except.ok apiKey => Except.ok (clientCall apiKey)
  | Except.error e => Except.error e

/-- `ControllerResponse` of `types/common.types.ts`: the Result Envelope
`{ content: string }`. -/
structure ControllerResponse where
  content : String

/-- The context record each controller passes to `handleControllerError`. -/
structure ErrorContext where
  entityType : String
  operation : String
  source : String
  primaryArg : String

/-- A value caught by a controller `catch` block: the plain `Error`
thrown by `getApiKey`, or the `McpError` raised by the service. -/
inductive ControllerCaught where
  | plain (message : String)
  | mcp (e : McpError)

/-- The normalized error the Orchestrator propagates: message,
HTTP-status-like numeric code and contextual metadata. -/
structure NormalizedError where
  message : Json
  statusCode : Int
  context : ErrorContext

/-- Modelled from the spec: `handleControllerError` of the missing
`utils/error-handler.util.ts` converts any caught error into the
normalized error the Orchestrator propagates, "carrying: human-readable
message, error kind, HTTP-status-like numeric code, and contextual
metadata (operation name, primary argument, internal source tag)". -/
def handleControllerError (e : ControllerCaught) (ctx : ErrorContext) : NormalizedError :=
  match e with
  | ControllerCaught.plain m => { message := Json.str m, statusCode := 500, context := ctx }
  | ControllerCaught.mcp me => { message := me.message, statusCode := me.statusCode, context := ctx }

namespace Controller

/-- `convertToMarkdown` of `controllers/reviewwebsite.controller.ts`
(lines 286–317), with the remote transport outcome explicit: resolve the
credential, invoke the client, wrap a success as
`{ content: JSON.stringify(result, null, 2) }`, convert any failure via
`handleControllerError`. -/
def convertToMarkdown (url : String) (convertOptions : Option ConvertToMarkdownOptions)
    (options : Option ReviewWebsiteOptions) (cfg : Config)
    (outcome : Except CaughtError Json) : Except NormalizedError ControllerResponse :=
  let ctx : ErrorContext :=
    { entityType := "Markdown", operation := "converting",
      source := "controllers/reviewwebsite.controller.ts@convertToMarkdown",
      primaryArg := url }
  match getApiKey options cfg with
  | Except.error m => Except.error (handleControllerError (ControllerCaught.plain m) ctx)
  | Except.ok _apiKey =>
      match runService "convertToMarkdown" outcome with
      | Except.ok result => Except.ok { content := jsonStringifyPretty result }
      | Except.error e => Except.error (handleControllerError (ControllerCaught.mcp e) ctx)

/-- `extractDataMultiple` of `controllers/reviewwebsite.controller.ts`
(lines 418–452), with the remote transport outcome explicit. -/
def extractDataMultiple (urls : List String) (extractOptions : ExtractDataOptions)
    (options : Option ReviewWebsiteOptions) (cfg : Config)
    (outcome : Except CaughtError Json) : Except NormalizedError ControllerResponse :=
  let ctx : ErrorContext :=
    { entityType := "Data", operation := "extracting multiple",
      source := "controllers/reviewwebsite.controller.ts@extractDataMultiple",
      primaryArg := toString urls.length }
  match getApiKey options cfg with
  | Except.error m => Except.error (handleControllerError (ControllerCaught.plain m) ctx)
  | Except.ok _apiKey =>
      match runService "extractDataMultiple" outcome with
      | Except.ok result => Except.ok { content := jsonStringifyPretty result }
      | Except.error e => Except.error (handleControllerError (ControllerCaught.mcp e) ctx)

/-- Modelled from the spec: the `getReview` Orchestrator operation. The
controller file in the provided sources stops at the URL/SEO operations,
but the tool layer calls `reviewWebsiteController.getReview`; per §4.3
it follows the same steps as every other operation — resolve credential,
invoke the client `getReview`, pretty-print the returned value as
indented JSON text in a Result Envelope, convert failures into the
normalized error. -/
def getReview (reviewId : String) (options : Option ReviewWebsiteOptions) (cfg : Config)
    (outcome : Except CaughtError Json) : Except NormalizedError ControllerResponse :=
  let ctx : ErrorContext :=
    { entityType := "Review", operation := "retrieving",
      source := "controllers/reviewwebsite.controller.ts@getReview",
      primaryArg := reviewId }
  match getApiKey options cfg with
  | Except.error m => Except.error (handleControllerError (ControllerCaught.plain m) ctx)
  | Except.ok _apiKey =>
      match runService "getReview" outcome with
      | Except.ok result => Except.ok { content := jsonStringifyPretty result }
      | Except.error e => Except.error (handleControllerError (ControllerCaught.mcp e) ctx)

end Controller

/-- A single entry of an MCP tool result's `content` array. -/
structure ContentBlock where
  type : String
  text : String

/-- The value an MCP tool handler returns to the protocol runtime. -/
structure McpToolResult where
  content : List ContentBlock

/-- Modelled from the spec: `formatErrorForMcpTool` of the missing
`utils/error.util.ts` reshapes a normalized error into the same
single-text-content-block result shape used for success, "so the calling
protocol never sees a hard failure — errors are reported as structured
text, not as transport-level faults". -/
def formatErrorForMcpTool (e : NormalizedError) : McpToolResult :=
  { content := [{ type := "text", text := "Error: " ++ jsonStringifyPretty e.message }] }

namespace Tool

/-- `ConvertToMarkdownToolArgs` of `tools/reviewwebsite.types.ts` after
schema validation. -/
structure ConvertToMarkdownArgs where
  url : String
  model : Option String := none
  delayAfterLoad : Option Int := none
  debug : Option Bool := none
  api_key : Option String := none

/-- `GetReviewToolArgs` of `tools/reviewwebsite.types.ts` after schema
validation. -/
structure GetReviewArgs where
  review_id : String
  api_key : Option String := none

/-- The argument record `handleConvertToMarkdown` logs:
`{ ...args, api_key: args.api_key ? '[REDACTED]' : undefined }`
(tools/reviewwebsite.tool.ts lines 46–49). -/
def loggedConvertToMarkdownArgs (args : ConvertToMarkdownArgs) : ConvertToMarkdownArgs :=
  { args with api_key := if strTruthy args.api_key then some "[REDACTED]" else none }

/-- `handleConvertToMarkdown` of `tools/reviewwebsite.tool.ts` (lines
41–76): call the controller, reshape the Result Envelope into a single
text content block; on a caught error return `formatErrorForMcpTool`. -/
def handleConvertToMarkdown (args : ConvertToMarkdownArgs) (cfg : Config)
    (outcome : Except CaughtError Json) : McpToolResult :=
  match Controller.convertToMarkdown args.url
      (some { model := args.model, delayAfterLoad := args.delayAfterLoad, debug := args.debug })
      (some { api_key := args.api_key }) cfg outcome with
  | Except.ok result => { content := [{ type := "text", text := result.content }] }
  | Except.error e => formatErrorForMcpTool e

/-- `handleGetReview` of `tools/reviewwebsite.tool.ts`: call
`controller.getReview(args.review_id, { api_key: args.api_key })` and
reshape the result; on a caught error return `formatErrorForMcpTool`. -/
def handleGetReview (args : GetReviewArgs) (cfg : Config)
    (outcome : Except CaughtError Json) : McpToolResult :=
  match Controller.getReview args.review_id (some { api_key := args.api_key }) cfg outcome with
  | Except.ok result => { content := [{ type := "text", text := result.content }] }
  | Except.error e => formatErrorForMcpTool e

end Tool

/-! ### Helper lemmas -/

lemma strTruthy_some_of_ne (k : String) (h : k ≠ "") : strTruthy (some k) = true := by
  have hie : k.isEmpty = false :=
    Bool.eq_false_iff.mpr (fun hie => h ((String.isEmpty_iff k).mp hie))
  simp [strTruthy, hie]

lemma mem_getHeaders (k : String) (h : k ≠ "") : ("X-API-Key", k) ∈ getHeaders (some k) := by
  simp [getHeaders, strTruthy_some_of_ne k h]

lemma getApiKey_perCall (cfg : Config) (callKey : String) (h : callKey ≠ "") :
    getApiKey (some { api_key := some callKey }) cfg = Except.ok callKey := by
  simp [getApiKey, strTruthy_some_of_ne callKey h]

lemma lookup_presentFields_of_forall_ne (key : String) (fs : List (String × Option Json))
    (h : ∀ f ∈ fs, f.1 ≠ key) : (presentFields fs).lookup key = none := by
  induction fs with
  | nil => rfl
  | cons f rest ih =>
      have hk : f.1 ≠ key := h f (List.mem_cons_self f rest)
      have hrest : ∀ g ∈ rest, g.1 ≠ key := fun g hg => h g (List.mem_cons_of_mem f hg)
      have hbeq : (key == f.1) = false := beq_eq_false_iff_ne.mpr (Ne.symm hk)
      cases hv : f.2 with
      | none => simpa [presentFields, List.filterMap_cons, hv] using ih hrest
      | some v =>
          simpa [presentFields, List.filterMap_cons, hv, List.lookup, hbeq] using ih hrest

/-! ### Claim theorems -/

/-- Claim C9 (code_bug): `src/env.ts` requires `REVIEWWEBSITE_ACCESS_KEY`
at startup, but credential resolution falls back to
`config.get('REVIEWWEBSITE_API_KEY')` — a different name. A process
configured with only the startup-required variable passes environment
validation yet every call without a per-call `api_key` fails with the
configuration error, contradicting the claim (and the evident intent
that the startup-required credential be the fallback). -/
theorem startup_key_never_consulted_by_resolution :
    envSchemaParse [("REVIEWWEBSITE_ACCESS_KEY", "test-access-key")] =
      Except.ok { REVIEWWEBSITE_ACCESS_KEY := "test-access-key" } ∧
    getApiKey none [("REVIEWWEBSITE_ACCESS_KEY", "test-access-key")] =
      Except.error "API key is required for ReviewWebsite API" ∧
    envRequiredKey ≠ configCredentialKey := by
  refine ⟨rfl, rfl, ?_⟩
  intro h
  exact absurd h (by decide)

/-- Claim C10: zero-valued optional numeric parameters are omitted from
the outgoing request exactly like absent ones — `url_is_alive` with
`timeout = 0` (and empty `proxyUrl`) and `list_reviews` with `page = 0`
or `limit = 0` produce requests identical to the ones with the options
omitted, because the source guards each append with JavaScript
truthiness (`if (options?.timeout)`, `if (page)`, `if (limit)`). -/
theorem zero_valued_options_treated_as_absent (url : String) (apiKey : Option String) :
    Service.isUrlAliveRequest url (some { timeout := some 0, proxyUrl := some "" }) apiKey =
      Service.isUrlAliveRequest url none apiKey ∧
    (Service.isUrlAliveRequest url (some { timeout := some 0, proxyUrl := some "" }) apiKey).query =
      [("url", url)] ∧
    Service.listReviewsRequest (some 0) (some 0) apiKey =
      Service.listReviewsRequest none none apiKey ∧
    (Service.listReviewsRequest (some 0) (some 0) apiKey).query = [] ∧
    (∀ limit : Int, Service.listReviewsRequest (some 0) (some limit) apiKey =
      Service.listReviewsRequest none (some limit) apiKey) ∧
    (∀ page : Int, Service.listReviewsRequest (some page) (some 0) apiKey =
      Service.listReviewsRequest (some page) none apiKey) :=
  ⟨rfl, rfl, rfl, rfl, fun _ => rfl, fun _ => rfl⟩

/-- Claim C2: when neither a per-call `api_key` nor a configured key is
truthy, `getApiKey` throws the configuration error, and the controller
fails without the remote-API client function ever being invoked: the
result is the same for any two client functions and for any two remote
outcomes, and it is always the configuration error. -/
theorem no_credential_fails_fast_without_client_call
    (options : Option ReviewWebsiteOptions) (cfg : Config)
    (h1 : strTruthy (options.bind ReviewWebsiteOptions.api_key) = false)
    (h2 : strTruthy (configGet cfg configCredentialKey) = false) :
    getApiKey options cfg = Except.error "API key is required for ReviewWebsite API" ∧
    (∀ (α : Type) (f g : String → α),
      resolveAndCall options cfg f = Except.error "API key is required for ReviewWebsite API" ∧
      resolveAndCall options cfg f = resolveAndCall options cfg g) ∧
    (∀ (url : String) (copts : Option ConvertToMarkdownOptions)
        (o1 o2 : Except CaughtError Json),
      Controller.convertToMarkdown url copts options cfg o1 =
        Controller.convertToMarkdown url copts options cfg o2 ∧
      Controller.convertToMarkdown url copts options cfg o1 =
        Except.error (handleControllerError
          (ControllerCaught.plain "API key is required for ReviewWebsite API")
          { entityType := "Markdown", operation := "converting",
            source := "controllers/reviewwebsite.controller.ts@convertToMarkdown",
            primaryArg := url })) := by
  have hkey : getApiKey options cfg = Except.error "API key is required for ReviewWebsite API" := by
    simp [getApiKey, h1, h2]
  refine ⟨hkey, fun α f g => ⟨?_, ?_⟩, fun url copts o1 o2 => ⟨?_, ?_⟩⟩ <;>
    simp [resolveAndCall, Controller.convertToMarkdown, hkey]

/-- Claim C2 witness: with no per-call key and an empty configuration,
the call fails with the configuration error and no client invocation. -/
theorem no_credential_fails_fast_check :
    strTruthy ((none : Option ReviewWebsiteOptions).bind ReviewWebsiteOptions.api_key) = false ∧
    strTruthy (configGet [] configCredentialKey) = false ∧
    getApiKey none [] = Except.error "API key is required for ReviewWebsite API" :=
  ⟨by decide, by decide,
    (no_credential_fails_fast_without_client_call none [] (by decide) (by decide)).1⟩

/-- Claim C1: when the caller supplies a (non-empty) per-call `api_key`
and a process-wide configured key also exists, resolution selects the
per-call key (`options?.api_key ||` short-circuits), and that key is the
value carried by the `X-API-Key` header of the request each service
function builds. -/
theorem perCall_api_key_selected_and_attached
    (cfg : Config) (callKey url reviewId : String) (urls : List String)
    (copts : Option ConvertToMarkdownOptions) (eopts : ExtractDataOptions)
    (lopts : Option ExtractLinksOptions) (sopts : Option SummarizeOptions)
    (uopts : Option UrlIsAliveOptions) (ropts : Option ReviewOptions)
    (delayAfterLoad page limit : Option Int) (instructions updUrl : Option String)
    (hcall : callKey ≠ "")
    (hcfg : strTruthy (configGet cfg configCredentialKey) = true) :
    getApiKey (some { api_key := some callKey }) cfg = Except.ok callKey ∧
    ("X-API-Key", callKey) ∈ (Service.convertToMarkdownRequest url copts (some callKey)).headers ∧
    ("X-API-Key", callKey) ∈ (Service.convertMultipleToMarkdownRequest urls copts (some callKey)).headers ∧
    ("X-API-Key", callKey) ∈ (Service.extractDataRequest url eopts (some callKey)).headers ∧
    ("X-API-Key", callKey) ∈ (Service.extractDataMultipleRequest urls eopts (some callKey)).headers ∧
    ("X-API-Key", callKey) ∈ (Service.scrapeUrlRequest url delayAfterLoad (some callKey)).headers ∧
    ("X-API-Key", callKey) ∈ (Service.extractLinksRequest url lopts (some callKey)).headers ∧
    ("X-API-Key", callKey) ∈ (Service.summarizeUrlRequest url sopts (some callKey)).headers ∧
    ("X-API-Key", callKey) ∈ (Service.summarizeWebsiteRequest url sopts (some callKey)).headers ∧
    ("X-API-Key", callKey) ∈ (Service.summarizeMultipleUrlsRequest urls sopts (some callKey)).headers ∧
    ("X-API-Key", callKey) ∈ (Service.isUrlAliveRequest url uopts (some callKey)).headers ∧
    ("X-API-Key", callKey) ∈ (Service.getUrlAfterRedirectsRequest url (some callKey)).headers ∧
    ("X-API-Key", callKey) ∈ (Service.getAIModelsRequest (some callKey)).headers ∧
    ("X-API-Key", callKey) ∈ (Service.createReviewRequest url instructions ropts (some callKey)).headers ∧
    ("X-API-Key", callKey) ∈ (Service.getReviewRequest reviewId (some callKey)).headers ∧
    ("X-API-Key", callKey) ∈ (Service.listReviewsRequest page limit (some callKey)).headers ∧
    ("X-API-Key", callKey) ∈ (Service.updateReviewRequest reviewId updUrl instructions (some callKey)).headers ∧
    ("X-API-Key", callKey) ∈ (Service.deleteReviewRequest reviewId (some callKey)).headers := by
  have hk := mem_getHeaders callKey hcall
  exact ⟨getApiKey_perCall cfg callKey hcall, hk, hk, hk, hk, hk, hk, hk, hk, hk, hk,
    hk, hk, hk, hk, hk, hk, hk⟩

/-- Claim C1 witness: a concrete per-call key wins over a concrete
configured key and lands in the `X-API-Key` header. -/
theorem perCall_api_key_selected_and_attached_check :
    ("percall-key" : String) ≠ "" ∧
    strTruthy (configGet [("REVIEWWEBSITE_API_KEY", "env-key")] configCredentialKey) = true ∧
    (getApiKey (some { api_key := some "percall-key" }) [("REVIEWWEBSITE_API_KEY", "env-key")] =
      Except.ok "percall-key" ∧
    ("X-API-Key", "percall-key") ∈
      (Service.getReviewRequest "abc" (some "percall-key")).headers) :=
  ⟨by decide, by decide,
    (perCall_api_key_selected_and_attached [("REVIEWWEBSITE_API_KEY", "env-key")]
        "percall-key" "https://a.test" "abc" [] none
        { instructions := "i", jsonTemplate := "t" } none none none none none none none
        none none (by decide) (by decide)).1,
    ((perCall_api_key_selected_and_attached [("REVIEWWEBSITE_API_KEY", "env-key")]
        "percall-key" "https://a.test" "abc" [] none
        { instructions := "i", jsonTemplate := "t" } none none none none none none none
        none none (by decide) (by decide)).2.2.2.2.2.2.2.2.2.2.2.2.2.2.1)⟩

lemma extractLinksOptions_field_url (o : ExtractLinksOptions) :
    o.toJson.field "url" = none := by
  have h := lookup_presentFields_of_forall_ne "url"
    [("type", o.type.map Json.str), ("maxLinks", o.maxLinks.map Json.num),
     ("delayAfterLoad", o.delayAfterLoad.map Json.num),
     ("getStatusCode", o.getStatusCode.map Json.bool),
     ("autoScrapeInternalLinks", o.autoScrapeInternalLinks.map Json.bool),
     ("debug", o.debug.map Json.bool)]
    (by
      intro f hf
      simp only [List.mem_cons, List.not_mem_nil, or_false] at hf
      rcases hf with h | h | h | h | h | h <;> subst h <;> simp)
  simpa [ExtractLinksOptions.toJson, bodyObj, Json.field] using h

/-- Claim C5: the target URL is placed exactly where the remote contract
expects it — as a query parameter named `url` for scrape, link
extraction, liveness and redirect resolution (with no `url` field in any
body those requests carry), and inside the JSON request body (with an
empty query) for the convert, extract and summarize operations, single
(`url`) and multiple (`urls`) alike. -/
theorem target_url_placement_matches_remote_contract
    (url : String) (urls : List String) (apiKey : Option String)
    (copts : Option ConvertToMarkdownOptions) (eopts : ExtractDataOptions)
    (lopts : Option ExtractLinksOptions) (sopts : Option SummarizeOptions)
    (uopts : Option UrlIsAliveOptions) (delayAfterLoad : Option Int) :
    ("url", url) ∈ (Service.scrapeUrlRequest url delayAfterLoad apiKey).query ∧
    (Service.scrapeUrlRequest url delayAfterLoad apiKey).bodyField "url" = none ∧
    ("url", url) ∈ (Service.extractLinksRequest url lopts apiKey).query ∧
    (Service.extractLinksRequest url lopts apiKey).bodyField "url" = none ∧
    ("url", url) ∈ (Service.isUrlAliveRequest url uopts apiKey).query ∧
    (Service.isUrlAliveRequest url uopts apiKey).body = none ∧
    ("url", url) ∈ (Service.getUrlAfterRedirectsRequest url apiKey).query ∧
    (Service.getUrlAfterRedirectsRequest url apiKey).body = none ∧
    (Service.convertToMarkdownRequest url copts apiKey).query = [] ∧
    (Service.convertToMarkdownRequest url copts apiKey).bodyField "url" = some (Json.str url) ∧
    (Service.extractDataRequest url eopts apiKey).query = [] ∧
    (Service.extractDataRequest url eopts apiKey).bodyField "url" = some (Json.str url) ∧
    (Service.summarizeUrlRequest url sopts apiKey).query = [] ∧
    (Service.summarizeUrlRequest url sopts apiKey).bodyField "url" = some (Json.str url) ∧
    (Service.summarizeWebsiteRequest url sopts apiKey).query = [] ∧
    (Service.summarizeWebsiteRequest url sopts apiKey).bodyField "url" = some (Json.str url) ∧
    (Service.convertMultipleToMarkdownRequest urls copts apiKey).query = [] ∧
    (Service.convertMultipleToMarkdownRequest urls copts apiKey).bodyField "urls" =
      some (Json.arr (urls.map Json.str)) ∧
    (Service.extractDataMultipleRequest urls eopts apiKey).query = [] ∧
    (Service.extractDataMultipleRequest urls eopts apiKey).bodyField "urls" =
      some (Json.arr (urls.map Json.str)) ∧
    (Service.summarizeMultipleUrlsRequest urls sopts apiKey).query = [] ∧
    (Service.summarizeMultipleUrlsRequest urls sopts apiKey).bodyField "urls" =
      some (Json.arr (urls.map Json.str)) := by
  refine ⟨by simp [Service.scrapeUrlRequest], ?_, by simp [Service.extractLinksRequest], ?_,
    by simp [Service.isUrlAliveRequest], rfl, by simp [Service.getUrlAfterRedirectsRequest],
    rfl, rfl, ?_, rfl, ?_, rfl, ?_, rfl, ?_, rfl, ?_, rfl, ?_, rfl, ?_⟩
  · simp [Service.scrapeUrlRequest, Request.bodyField, Json.field, List.lookup]
  · cases lopts with
    | none => rfl
    | some o =>
        simpa [Service.extractLinksRequest, Request.bodyField] using
          extractLinksOptions_field_url o
  all_goals
    simp [Service.convertToMarkdownRequest, Service.extractDataRequest,
      Service.summarizeUrlRequest, Service.summarizeWebsiteRequest,
      Service.convertMultipleToMarkdownRequest, Service.extractDataMultipleRequest,
      Service.summarizeMultipleUrlsRequest, Request.bodyField, bodyObj, presentFields,
      List.filterMap_cons, Json.field, List.lookup]

/-- Claim C6: the `extract_data_multiple` request body carries the given
URL list exactly — same elements, same order, no de-duplication — under
the top-level `urls` field, with the extraction options (including
`instructions` and `jsonTemplate`) under the sibling `options` field. -/
theorem extract_data_multiple_body_preserves_urls
    (urls : List String) (eopts : ExtractDataOptions) (apiKey : Option String)
    (h : urls ≠ []) :
    (Service.extractDataMultipleRequest urls eopts apiKey).bodyField "urls" =
      some (Json.arr (urls.map Json.str)) ∧
    (Service.extractDataMultipleRequest urls eopts apiKey).bodyField "options" =
      some eopts.toJson ∧
    eopts.toJson.field "instructions" = some (Json.str eopts.instructions) ∧
    eopts.toJson.field "jsonTemplate" = some (Json.str eopts.jsonTemplate) := by
  refine ⟨?_, ?_, ?_, ?_⟩
  · simp [Service.extractDataMultipleRequest, Request.bodyField, bodyObj, presentFields,
      List.filterMap_cons, Json.field, List.lookup]
  · simp [Service.extractDataMultipleRequest, Request.bodyField, bodyObj, presentFields,
      List.filterMap_cons, Json.field, List.lookup]
  · simp [ExtractDataOptions.toJson, bodyObj, presentFields, List.filterMap_cons,
      Json.field, List.lookup]
  · cases hsp : eopts.systemPrompt <;>
      simp [ExtractDataOptions.toJson, bodyObj, presentFields, List.filterMap_cons,
        Json.field, List.lookup, hsp]

/-- Claim C6 witness: the concrete two-URL call keeps both URLs in
order under `urls` with the options as a sibling field. -/
theorem extract_data_multiple_body_preserves_urls_check :
    (["https://a.test", "https://b.test"] : List String) ≠ [] ∧
    (Service.extractDataMultipleRequest ["https://a.test", "https://b.test"]
        { instructions := "Extract the page title", jsonTemplate := "(template)" }
        (some "key")).bodyField "urls" =
      some (Json.arr (List.map Json.str ["https://a.test", "https://b.test"])) :=
  ⟨by decide,
    (extract_data_multiple_body_preserves_urls ["https://a.test", "https://b.test"]
      { instructions := "Extract the page title", jsonTemplate := "(template)" }
      (some "key") (by decide)).1⟩

/-- Claim C3: whenever a credential resolves, a successful remote
response makes the Orchestrator return a Result Envelope whose `content`
is the response body pretty-printed by `JSON.stringify(·, null, 2)`; in
particular `get_review` on a mocked 200 response with body
`{"id":"abc"}` yields the two-space-indented text. -/
theorem success_envelope_is_pretty_printed_body
    (url reviewId : String) (urls : List String)
    (copts : Option ConvertToMarkdownOptions) (eopts : ExtractDataOptions)
    (options : Option ReviewWebsiteOptions) (cfg : Config) (k : String) (data : Json)
    (h : getApiKey options cfg = Except.ok k) :
    Controller.convertToMarkdown url copts options cfg (Except.ok data) =
      Except.ok { content := jsonStringifyPretty data } ∧
    Controller.extractDataMultiple urls eopts options cfg (Except.ok data) =
      Except.ok { content := jsonStringifyPretty data } ∧
    Controller.getReview reviewId options cfg (Except.ok data) =
      Except.ok { content := jsonStringifyPretty data } ∧
    Controller.getReview "abc" options cfg
        (Except.ok (Json.obj [("id", Json.str "abc")])) =
      Except.ok { content := "\x7b\n  \"id\": \"abc\"\n\x7d" } := by
  refine ⟨?_, ?_, ?_, ?_⟩
  · simp [Controller.convertToMarkdown, runService, h]
  · simp [Controller.extractDataMultiple, runService, h]
  · simp [Controller.getReview, runService, h]
  · simp only [Controller.getReview, runService, h]
    rfl

/-- Claim C3 witness: with only a configured key, the mocked
`get_review` 200 response `{"id":"abc"}` produces exactly the
pretty-printed envelope. -/
theorem success_envelope_is_pretty_printed_body_check :
    getApiKey none [("REVIEWWEBSITE_API_KEY", "cfg-key")] = Except.ok "cfg-key" ∧
    Controller.getReview "abc" none [("REVIEWWEBSITE_API_KEY", "cfg-key")]
        (Except.ok (Json.obj [("id", Json.str "abc")])) =
      Except.ok { content := "\x7b\n  \"id\": \"abc\"\n\x7d" } :=
  ⟨rfl,
    (success_envelope_is_pretty_printed_body "https://a.test" "abc" [] none
      { instructions := "i", jsonTemplate := "t" } none
      [("REVIEWWEBSITE_API_KEY", "cfg-key")] "cfg-key" Json.null rfl).2.2.2⟩

/-- Upstream message selection as the spec reads after amendment: the
remote body's `message` field when that field exists and is truthy,
otherwise the generic unknown-upstream message. -/
def specUpstreamMessage (data : Json) : Json :=
  match data.field "message" with
  | some msgVal => if msgVal.truthy then msgVal else Json.str "Unknown error from ReviewWebsite API"
  | none => Json.str "Unknown error from ReviewWebsite API"

/-- Upstream code selection as the spec reads after amendment: the
remote body's `error` field when that field exists and is truthy,
otherwise the generic upstream error code. -/
def specUpstreamCode (data : Json) : Json :=
  match data.field "error" with
  | some codeVal => if codeVal.truthy then codeVal else Json.str "reviewwebsite_api_error"
  | none => Json.str "reviewwebsite_api_error"

lemma handleApiError_response_message (cfgA : AxiosConfig) (status : Int) (data : Json)
    (m : String) :
    (handleApiError (CaughtError.axios cfgA (some (status, data))) m).message =
      specUpstreamMessage data ∧
    (handleApiError (CaughtError.axios cfgA (some (status, data))) m).metadata.errorCode =
      specUpstreamCode data := by
  cases data with
  | obj fields =>
      constructor
      · cases hm : (Json.obj fields).field "message" <;>
          simp [handleApiError, specUpstreamMessage, jsTruthy, hm, Json.truthy,
            Json.typeofObject]
      · cases hc : (Json.obj fields).field "error" <;>
          simp [handleApiError, specUpstreamCode, jsTruthy, hc, Json.truthy,
            Json.typeofObject]
  | null => exact ⟨rfl, rfl⟩
  | bool b => cases b <;> exact ⟨rfl, rfl⟩
  | num n =>
      constructor <;>
        simp [handleApiError, specUpstreamMessage, specUpstreamCode, Json.field,
          Json.truthy, Json.typeofObject, jsTruthy]
  | str s =>
      constructor <;>
        simp [handleApiError, specUpstreamMessage, specUpstreamCode, Json.field,
          Json.truthy, Json.typeofObject, jsTruthy]
  | arr elems => exact ⟨rfl, rfl⟩

/-- Claim C4 counterexample: a 404 response whose body carries a
present-but-empty `message` field (`{"message":"","error":"not_found"}`)
does not propagate that field as the error message — the code's
truthiness test replaces it with the generic unknown-upstream message,
so "the remote body's message field as its message (or the generic …
when absent)" fails as stated. -/
theorem present_empty_message_not_propagated :
    (Json.obj [("message", Json.str ""), ("error", Json.str "not_found")]).field "message" =
      some (Json.str "") ∧
    (handleApiError
        (CaughtError.axios {}
          (some (404, Json.obj [("message", Json.str ""), ("error", Json.str "not_found")])))
        "getReview").message =
      Json.str "Unknown error from ReviewWebsite API" ∧
    Json.str "" ≠ Json.str "Unknown error from ReviewWebsite API" := by
  refine ⟨rfl, rfl, ?_⟩
  intro hcontra
  injection hcontra with hs
  exact absurd hs (by decide)

/-- Claim C4 (amended): every service failure raises a normalized
`McpError` and never returns data. A non-2xx response yields an
`API_ERROR` carrying the response status, the remote `message` field
when truthy — a present-but-falsy field, such as the empty string, also
yields the generic unknown-upstream message — and likewise the remote
`error` field when truthy as its code; any other failure yields an
`UNEXPECTED_ERROR` with the generic message, numeric code 500 and the
original cause retained. The mocked 404 `get_review` example carries
code 404 and message "not found". -/
theorem service_failures_normalized
    (cfgA : AxiosConfig) (status : Int) (data : Json) (m s : String)
    (e : CaughtError) :
    (handleApiError (CaughtError.axios cfgA (some (status, data))) m).statusCode = status ∧
    (handleApiError (CaughtError.axios cfgA (some (status, data))) m).errorType =
      ErrorType.API_ERROR ∧
    (handleApiError (CaughtError.axios cfgA (some (status, data))) m).message =
      specUpstreamMessage data ∧
    (handleApiError (CaughtError.axios cfgA (some (status, data))) m).metadata.errorCode =
      specUpstreamCode data ∧
    (handleApiError (CaughtError.axios cfgA none) m).errorType = ErrorType.UNEXPECTED_ERROR ∧
    (handleApiError (CaughtError.axios cfgA none) m).statusCode = 500 ∧
    (handleApiError (CaughtError.axios cfgA none) m).message =
      Json.str "Failed to communicate with ReviewWebsite API" ∧
    (handleApiError (CaughtError.axios cfgA none) m).metadata.cause =
      some (CaughtError.axios cfgA none) ∧
    (handleApiError (CaughtError.other s) m).errorType = ErrorType.UNEXPECTED_ERROR ∧
    (handleApiError (CaughtError.other s) m).statusCode = 500 ∧
    (handleApiError (CaughtError.other s) m).metadata.cause = some (CaughtError.other s) ∧
    runService m (Except.error e) = Except.error (handleApiError e m) ∧
    (handleApiError
        (CaughtError.axios {}
          (some (404, Json.obj [("message", Json.str "not found"),
                                ("error", Json.str "not_found")])))
        "getReview").message = Json.str "not found" ∧
    (handleApiError
        (CaughtError.axios {}
          (some (404, Json.obj [("message", Json.str "not found"),
                                ("error", Json.str "not_found")])))
        "getReview").statusCode = 404 ∧
    (handleApiError
        (CaughtError.axios {}
          (some (404, Json.obj [("message", Json.str "not found"),
                                ("error", Json.str "not_found")])))
        "getReview").errorType = ErrorType.API_ERROR ∧
    (handleApiError
        (CaughtError.axios {}
          (some (404, Json.obj [("message", Json.str "not found"),
                                ("error", Json.str "not_found")])))
        "getReview").metadata.errorCode = Json.str "not_found" :=
  ⟨rfl, rfl, (handleApiError_response_message cfgA status data m).1,
    (handleApiError_response_message cfgA status data m).2,
    rfl, rfl, rfl, rfl, rfl, rfl, rfl, rfl, rfl, rfl, rfl, rfl⟩

/-- Claim C7: for every input — success or any error kind — the MCP tool
handler returns the single-text-content-block result shape; no error
escapes as a raised exception across the transport boundary. -/
theorem tool_handlers_return_text_blocks
    (args : Tool.ConvertToMarkdownArgs) (gargs : Tool.GetReviewArgs) (cfg : Config)
    (outcome : Except CaughtError Json) :
    (∃ t, Tool.handleConvertToMarkdown args cfg outcome =
      { content := [{ type := "text", text := t }] }) ∧
    (∃ t, Tool.handleGetReview gargs cfg outcome =
      { content := [{ type := "text", text := t }] }) ∧
    (∀ e : NormalizedError, formatErrorForMcpTool e =
      { content := [{ type := "text", text := "Error: " ++ jsonStringifyPretty e.message }] }) := by
  refine ⟨?_, ?_, fun e => rfl⟩
  · cases hc : Controller.convertToMarkdown args.url
        (some { model := args.model, delayAfterLoad := args.delayAfterLoad,
                debug := args.debug })
        (some { api_key := args.api_key }) cfg outcome with
    | ok r => exact ⟨r.content, by simp [Tool.handleConvertToMarkdown, hc]⟩
    | error e =>
        exact ⟨"Error: " ++ jsonStringifyPretty e.message,
          by simp [Tool.handleConvertToMarkdown, hc, formatErrorForMcpTool]⟩
  · cases hc : Controller.getReview gargs.review_id (some { api_key := gargs.api_key })
        cfg outcome with
    | ok r => exact ⟨r.content, by simp [Tool.handleGetReview, hc]⟩
    | error e =>
        exact ⟨"Error: " ++ jsonStringifyPretty e.message,
          by simp [Tool.handleGetReview, hc, formatErrorForMcpTool]⟩

/-- Whether a normalized service error mentions the given string inside
the retained cause (as a query parameter value or a header value of the
failed request's configuration, or as the message of a non-axios
cause). -/
def McpError.mentionsString (e : McpError) (s : String) : Bool :=
  match e.metadata.cause with
  | some (CaughtError.axios c _) =>
      c.params.any (fun p => p.2 == s) || c.headers.any (fun p => p.2 == s)
  | some (CaughtError.other msg) => msg == s
  | none => false

/-- The request configuration of a call made with the resolved key
`sk-live-secret-key`, as axios retains it on the error it throws for a
network failure. -/
def failedRequestConfig : AxiosConfig :=
  { url := some (API_BASE ++ "/review/abc"), params := [],
    headers := getHeaders (some "sk-live-secret-key") }

/-- Claim C8 counterexample: a transport failure's normalized error does
not carry only message, kind, numeric code, error code and source — it
retains the original cause, and through the failed request's headers the
resolved API key appears inside the normalized error. -/
theorem transport_error_retains_credential_in_cause :
    ("X-API-Key", "sk-live-secret-key") ∈ failedRequestConfig.headers ∧
    (handleApiError (CaughtError.axios failedRequestConfig none) "getReview").mentionsString
      "sk-live-secret-key" = true ∧
    (handleApiError (CaughtError.axios failedRequestConfig none) "getReview").metadata.cause ≠
      none := by
  refine ⟨by decide, rfl, ?_⟩
  simp [handleApiError]

/-- Claim C8 (amended): upstream (non-2xx response) normalized errors
carry only message, kind, numeric code, error code and source — they are
independent of the failed request's configuration (hence of the resolved
key) and mention no string through a retained cause; transport errors
additionally retain the original cause, through which the resolved key
can appear; tool-handler logs replace the `api_key` argument with the
`[REDACTED]` marker (or drop it). -/
theorem credential_exposure_characterized
    (cfgA cfgB : AxiosConfig) (status : Int) (data : Json) (m s : String)
    (args : Tool.ConvertToMarkdownArgs) :
    handleApiError (CaughtError.axios cfgA (some (status, data))) m =
      handleApiError (CaughtError.axios cfgB (some (status, data))) m ∧
    (handleApiError (CaughtError.axios cfgA (some (status, data))) m).metadata.cause = none ∧
    (handleApiError (CaughtError.axios cfgA (some (status, data))) m).mentionsString s =
      false ∧
    (handleApiError (CaughtError.axios cfgA none) m).metadata.cause =
      some (CaughtError.axios cfgA none) ∧
    ((Tool.loggedConvertToMarkdownArgs args).api_key = none ∨
      (Tool.loggedConvertToMarkdownArgs args).api_key = some "[REDACTED]") := by
  refine ⟨rfl, rfl, rfl, rfl, ?_⟩
  cases h : strTruthy args.api_key <;>
    simp [Tool.loggedConvertToMarkdownArgs, h]

end ReviewWebsite
